import Mathlib

/-!
Shallow embedding of the product-catalog domain of this repository
(a Next.js storefront organised along DDD lines) and proofs of the
specification claims about it.

Modelling conventions:
* TypeScript `number` is embedded as `ℚ` (the code only compares and
  copies numbers; no floating-point rounding is exercised).
* `Date` values are embedded as `ℤ` (milliseconds since the epoch); an
  ISO-8601 string produced by `toISOString` is identified with its
  timestamp, which is faithful because `toISOString` is injective on
  valid dates and `new Date(iso)` inverts it.
* Methods that mutate `this` are embedded as functions from the entity
  state to `Except String` of the new state; a thrown `Error` is the
  `.error` case carrying the message.  Calls that obtain the current
  time (`new Date()`) receive it as an explicit `now` argument.
* JavaScript truthiness on strings (`!s` / `s || d`) is embedded by
  explicit emptiness tests; an absent (`undefined`) field is `none`.
-/

/-- JavaScript whitespace characters relevant to `String.prototype.trim`
(restricted to the ASCII whitespace actually usable in category names). -/
def isWs (c : Char) : Bool :=
  c == ' ' || c == '\t' || c == '\n' || c == '\r'

/-- Char lowering as performed by `String.prototype.toLowerCase` on
ASCII input: map A–Z to a–z and leave everything else unchanged. -/
def lowerChar (c : Char) : Char :=
  if 'A' ≤ c ∧ c ≤ 'Z' then Char.ofNat (c.toNat + 32) else c

/-- Embeds `value.toLowerCase()` on the character list of a string. -/
def jsToLower (s : String) : String :=
  ⟨s.data.map lowerChar⟩

/-- Embeds `s.trim()` on a character list: drop whitespace from both ends. -/
def trimList (l : List Char) : List Char :=
  ((l.dropWhile isWs).reverse.dropWhile isWs).reverse

/-- Embeds `s.trim()` as in JavaScript. -/
def jsTrim (s : String) : String :=
  ⟨trimList s.data⟩

/-- JavaScript truthiness of an optional string field (`undefined` and
`""` are falsy). -/
def truthyS (o : Option String) : Bool :=
  match o with
  | some s => !(s == "")
  | none => false

/-- JavaScript truthiness of an optional numeric field (`undefined` and
`0` are falsy). -/
def truthyN (o : Option ℚ) : Bool :=
  match o with
  | some q => !(q == 0)
  | none => false

/-- Embeds `o || dflt` for an optional string: the value when truthy, else the
default. -/
def jsOr (o : Option String) (dflt : String) : String :=
  match o with
  | some s => if s == "" then dflt else s
  | none => dflt

/-- Embeds `ProductCategory.VALID_CATEGORIES` from
`src/core/domain/value-objects/ProductCategory.ts`. -/
def VALID_CATEGORIES : List String :=
  ["electronics", "clothing", "books", "home", "sports",
   "toys", "food", "health", "beauty", "other"]

/-- The `ProductCategory` value object: a wrapper around its stored
(lowercased) `value` string. -/
structure ProductCategory where
  value : String
deriving DecidableEq

/-- The `ProductCategory` constructor: `validateCategory` (empty check,
then membership of the lowercased input in `VALID_CATEGORIES`) followed
by the assignment `this._value = value.toLowerCase()`. -/
def ProductCategory.make (value : String) : Except String ProductCategory :=
  if value == "" || (jsTrim value).length == 0 then
    .error "Category cannot be empty"
  else if VALID_CATEGORIES.contains (jsToLower value) then
    .ok ⟨jsToLower value⟩
  else
    .error ("Invalid category: " ++ value ++ ". Valid categories are: "
      ++ String.intercalate ", " VALID_CATEGORIES)

/-- The `Product` entity state from
`src/core/domain/entities/Product.ts` (private fields `_id` … `_updatedAt`). -/
structure Product where
  id : String
  name : String
  description : String
  price : ℚ
  category : ProductCategory
  inStock : Bool
  stockQuantity : ℚ
  createdAt : ℤ
  updatedAt : ℤ
deriving DecidableEq

/-- Embeds `Product.validateProduct`: the full-validation routine the
constructor runs before returning. -/
def Product.validate (p : Product) : Except String Unit :=
  if p.id == "" then
    .error "Product ID is required"
  else if p.name == "" || (jsTrim p.name).length == 0 then
    .error "Product name cannot be empty"
  else if p.price < 0 then
    .error "Price cannot be negative"
  else if p.stockQuantity < 0 then
    .error "Stock quantity cannot be negative"
  else
    .ok ()

/-- The `Product` constructor: assign all fields, derive
`_inStock = stockQuantity > 0`, then run `validateProduct`. -/
def Product.construct (id name description : String) (price : ℚ)
    (category : ProductCategory) (stockQuantity : ℚ)
    (createdAt updatedAt : ℤ) : Except String Product :=
  let p : Product :=
    { id := id, name := name, description := description, price := price,
      category := category, inStock := decide (0 < stockQuantity),
      stockQuantity := stockQuantity,
      createdAt := createdAt, updatedAt := updatedAt }
  match p.validate with
  | .ok _ => .ok p
  | .error e => .error e

/-- Embeds `Product.create`: the factory method, defaulting both timestamps to
the current time. -/
def Product.create (id name description : String) (price : ℚ)
    (category : ProductCategory) (stockQuantity : ℚ) (now : ℤ) :
    Except String Product :=
  Product.construct id name description price category stockQuantity now now

/-- Embeds `Product.updateStock`: reject negative quantities, else set the
quantity, re-derive `_inStock` and refresh `_updatedAt`. -/
def Product.updateStock (p : Product) (quantity : ℚ) (now : ℤ) :
    Except String Product :=
  if quantity < 0 then
    .error "Stock quantity cannot be negative"
  else
    .ok { p with stockQuantity := quantity,
                 inStock := decide (0 < quantity),
                 updatedAt := now }

/-- Embeds `Product.updatePrice`: reject negative prices, else set the price
and refresh `_updatedAt`. -/
def Product.updatePrice (p : Product) (price : ℚ) (now : ℤ) :
    Except String Product :=
  if price < 0 then
    .error "Price cannot be negative"
  else
    .ok { p with price := price, updatedAt := now }

/-- Embeds `Product.updateDetails`: reject an empty name, else set name,
description and category and refresh `_updatedAt`. -/
def Product.updateDetails (p : Product) (name description : String)
    (category : ProductCategory) (now : ℤ) : Except String Product :=
  if name == "" || (jsTrim name).length == 0 then
    .error "Product name cannot be empty"
  else
    .ok { p with name := name, description := description,
                 category := category, updatedAt := now }

/-- One call to a public mutator of `Product`, with the wall-clock time
the call would observe. -/
inductive Mutation where
  | stock (quantity : ℚ) (now : ℤ)
  | priceM (price : ℚ) (now : ℤ)
  | details (name description : String) (category : ProductCategory) (now : ℤ)
deriving DecidableEq

/-- Apply one mutator call to an entity.  A thrown error leaves the
entity unchanged (the TypeScript methods throw before any assignment). -/
def runMut (p : Product) (m : Mutation) : Product :=
  match m with
  | .stock q now =>
    match p.updateStock q now with
    | .ok p2 => p2
    | .error _ => p
  | .priceM pr now =>
    match p.updatePrice pr now with
    | .ok p2 => p2
    | .error _ => p
  | .details n d c now =>
    match p.updateDetails n d c now with
    | .ok p2 => p2
    | .error _ => p

/-- Apply a sequence of mutator calls in order. -/
def runMuts (p : Product) (ms : List Mutation) : Product :=
  ms.foldl runMut p

/-- The plain object returned by `Product.toPrimitives` (the product
DTO shape). -/
structure ProductPrimitives where
  id : String
  name : String
  description : String
  price : ℚ
  category : String
  inStock : Bool
  stockQuantity : ℚ
  createdAt : ℤ
  updatedAt : ℤ
deriving DecidableEq

/-- Embeds `Product.toPrimitives`. -/
def Product.toPrimitives (p : Product) : ProductPrimitives :=
  { id := p.id, name := p.name, description := p.description,
    price := p.price, category := p.category.value, inStock := p.inStock,
    stockQuantity := p.stockQuantity,
    createdAt := p.createdAt, updatedAt := p.updatedAt }

/-- The raw-data argument of `Product.fromPrimitives`
(`stockQuantity`, `createdAt`, `updatedAt` optional). -/
structure RawProductData where
  id : String
  name : String
  description : String
  price : ℚ
  category : String
  stockQuantity : Option ℚ
  createdAt : Option ℤ
  updatedAt : Option ℤ
deriving DecidableEq

/-- Embeds `Product.fromPrimitives`: construct a category from the raw string
(which may throw), default `stockQuantity` with `|| 0` and the
timestamps with `new Date()`, and run the entity constructor. -/
def Product.fromPrimitives (now : ℤ) (d : RawProductData) :
    Except String Product := do
  let cat ← ProductCategory.make d.category
  Product.construct d.id d.name d.description d.price cat
    (d.stockQuantity.getD 0) (d.createdAt.getD now) (d.updatedAt.getD now)

/-- Passing a `toPrimitives` result back into `fromPrimitives`: the
DTO's extra `inStock` field is ignored by `fromPrimitives`, every
optional field is present. -/
def ProductPrimitives.toRaw (o : ProductPrimitives) : RawProductData :=
  { id := o.id, name := o.name, description := o.description,
    price := o.price, category := o.category,
    stockQuantity := some o.stockQuantity,
    createdAt := some o.createdAt, updatedAt := some o.updatedAt }

/-- Outcome of one `fetch` call as observed by the repository code:
either the promise rejects (network error, `throws`), or a response
arrives with its `ok` flag, numeric `status`, `statusText` and parsed
JSON body. -/
inductive FetchOutcome (α : Type) where
  | throws (msg : String)
  | resp (ok : Bool) (status : Nat) (statusText : String) (body : α)
deriving DecidableEq

/-- Body of the `try` block of `ApiProductRepository.findById`: 404
responses yield `null`, other non-ok responses throw, an ok response is
parsed with `Product.fromPrimitives` (which may itself throw). -/
def ApiProductRepository.findByIdTry (now : ℤ)
    (f : FetchOutcome RawProductData) : Except String (Option Product) :=
  match f with
  | .throws msg => .error msg
  | .resp ok status statusText body =>
    if !ok then
      if status == 404 then .ok none
      else .error ("Failed to fetch product: " ++ statusText)
    else
      (Product.fromPrimitives now body).map some

/-- Embeds `ApiProductRepository.findById`: the surrounding `catch` logs any
error and returns `null`. -/
def ApiProductRepository.findById (now : ℤ)
    (f : FetchOutcome RawProductData) : Option Product :=
  match ApiProductRepository.findByIdTry now f with
  | .ok r => r
  | .error _ => none

/-- Body of the `try` block of `ApiProductRepository.findAll`: non-ok
responses throw, an ok response is mapped through
`Product.fromPrimitives` item by item. -/
def ApiProductRepository.findAllTry (now : ℤ)
    (f : FetchOutcome (List RawProductData)) : Except String (List Product) :=
  match f with
  | .throws msg => .error msg
  | .resp ok _ statusText body =>
    if !ok then .error ("Failed to fetch products: " ++ statusText)
    else body.mapM (Product.fromPrimitives now)

/-- Embeds `ApiProductRepository.findAll`: the surrounding `catch` logs any
error and returns an empty array. -/
def ApiProductRepository.findAll (now : ℤ)
    (f : FetchOutcome (List RawProductData)) : List Product :=
  match ApiProductRepository.findAllTry now f with
  | .ok r => r
  | .error _ => []

/-- Body of the `try` block of `ApiProductRepository.findByCategory`
(the category only selects the URL; the response handling is as in
`findAll`). -/
def ApiProductRepository.findByCategoryTry (now : ℤ)
    (f : FetchOutcome (List RawProductData)) : Except String (List Product) :=
  match f with
  | .throws msg => .error msg
  | .resp ok _ statusText body =>
    if !ok then .error ("Failed to fetch products by category: " ++ statusText)
    else body.mapM (Product.fromPrimitives now)

/-- Embeds `ApiProductRepository.findByCategory`: the surrounding `catch` logs
any error and returns an empty array. -/
def ApiProductRepository.findByCategory (now : ℤ)
    (f : FetchOutcome (List RawProductData)) : List Product :=
  match ApiProductRepository.findByCategoryTry now f with
  | .ok r => r
  | .error _ => []

/-- Embeds `ApiProductRepository.save`: a rejected `fetch` or a non-ok
response throws, and the `catch` block rethrows, so the failure
propagates to the caller. -/
def ApiProductRepository.save (f : FetchOutcome Unit) : Except String Unit :=
  match f with
  | .throws msg => .error msg
  | .resp ok _ statusText _ =>
    if !ok then .error ("Failed to save product: " ++ statusText)
    else .ok ()

/-- Embeds `ApiProductRepository.delete`: as for `save`, the `catch` block
rethrows, so the failure propagates to the caller. -/
def ApiProductRepository.delete (f : FetchOutcome Unit) : Except String Unit :=
  match f with
  | .throws msg => .error msg
  | .resp ok _ statusText _ =>
    if !ok then .error ("Failed to delete product: " ++ statusText)
    else .ok ()

/-- Embeds `CreateProductDto` from `src/core/application/dtos/ProductDto.ts`. -/
structure CreateProductDto where
  id : Option String
  name : String
  description : String
  price : ℚ
  category : String
  stockQuantity : Option ℚ
deriving DecidableEq

/-- Embeds `UpdateProductDto`: every field optional. -/
structure UpdateProductDto where
  name : Option String
  description : Option String
  price : Option ℚ
  category : Option String
  stockQuantity : Option ℚ
deriving DecidableEq

/-- Embeds `ProductService.initializeMockData`: the five demo products the
service holds, built through `Product.create` exactly as in the source
(the construction is total on these arguments, so the `Except` is
`.ok`). -/
def initialMockData (now : ℤ) : Except String (List Product) := do
  let electronics ← ProductCategory.make "electronics"
  let clothing ← ProductCategory.make "clothing"
  let p1 ← Product.create "1" "Smartphone"
    "A high-end smartphone with the latest features" (99999 / 100)
    electronics 50 now
  let p2 ← Product.create "2" "Laptop"
    "Powerful laptop for work and gaming" (149999 / 100) electronics 30 now
  let p3 ← Product.create "3" "Headphones"
    "Noise-cancelling wireless headphones" (29999 / 100) electronics 100 now
  let p4 ← Product.create "4" "T-shirt"
    "Comfortable cotton t-shirt" (1999 / 100) clothing 200 now
  let p5 ← Product.create "5" "Jeans"
    "Classic blue jeans" (4999 / 100) clothing 150 now
  pure [p1, p2, p3, p4, p5]

/-- The service's `mockProducts` list right after construction. -/
def initialMocks (now : ℤ) : List Product :=
  (initialMockData now).toOption.getD []

/-- Embeds `ProductService.getProductsByCategory`.  The repository call is
abstracted as a function from the constructed category to the outcome
of `findByCategory`.  The inner `try` falls back to the mock list both
when the repository throws and when it returns an empty list; the outer
`catch` (reached when `new ProductCategory` throws) returns `[]`. -/
def ProductService.getProductsByCategory (mocks : List Product)
    (repo : ProductCategory → Except String (List Product))
    (categoryName : String) : List Product :=
  match (do
    let category ← ProductCategory.make categoryName
    let viaRepo : Option (List Product) :=
      match repo category with
      | .ok products => if products.length > 0 then some products else none
      | .error _ => none
    pure (match viaRepo with
      | some products => products
      | none => mocks.filter (fun p => p.category.value == category.value)) :
    Except String (List Product)) with
  | .ok r => r
  | .error _ => []

/-- Embeds `ProductService.createProduct` from
`src/nextjs-ddd-project/src/core/application/use-cases/ProductService.ts`
(the service class the products route instantiates): construct the
category and the entity, then `await productRepository.save(product)`
with no inner catch; the outer `catch` rethrows, so a category or
entity validation error and a rejected save all propagate to the
caller.  `freshId` stands for `crypto.randomUUID()`, used when the DTO
carries no (truthy) id, and `save` is the repository's save call. -/
def ProductService.createProduct (freshId : String)
    (dto : CreateProductDto) (now : ℤ)
    (save : Product → Except String Unit) : Except String Product :=
  Except.bind (ProductCategory.make dto.category) (fun category =>
    Except.bind (Product.create (jsOr dto.id freshId) dto.name
      dto.description dto.price category (dto.stockQuantity.getD 0) now)
      (fun product =>
        Except.bind (save product) (fun _ => .ok product)))

/-- Embeds `ProductService.updateProduct`, with the result of the
`getProductById` lookup passed in as `existing`.  Mirrors the source:
`updateDetails` runs only when one of name/description/category is
truthy, with `||` fallbacks to the existing values; `updatePrice` and
`updateStock` run exactly when the respective field is present
(`!== undefined`); the `save` failure is caught, and the outer `catch`
rethrows every error. -/
def ProductService.updateProduct (existing : Option Product)
    (dto : UpdateProductDto) (now : ℤ) : Except String (Option Product) :=
  match existing with
  | none => .ok none
  | some p0 =>
    Except.bind
      (if truthyS dto.name || truthyS dto.description || truthyS dto.category then
        Except.bind
          (match dto.category with
           | some c =>
             if c == "" then .ok p0.category else ProductCategory.make c
           | none => .ok p0.category)
          (fun category =>
            p0.updateDetails (jsOr dto.name p0.name)
              (jsOr dto.description p0.description) category now)
      else .ok p0)
      (fun p1 =>
        Except.bind
          (match dto.price with
           | some pr => p1.updatePrice pr now
           | none => .ok p1)
          (fun p2 =>
            Except.bind
              (match dto.stockQuantity with
               | some q => p2.updateStock q now
               | none => .ok p2)
              (fun p3 => .ok (some p3))))

/-- The JSON body of a `POST /api/products` request (absent fields are
`none`; `price` and `stockQuantity` arrive as JSON numbers). -/
structure PostRequestBody where
  name : Option String
  description : Option String
  price : Option ℚ
  category : Option String
  stockQuantity : Option ℚ
deriving DecidableEq

/-- The response of the `POST /api/products` route handler:
400 `{error:"Missing required fields"}`, 201 with the created DTO, or
500 `{error:"Failed to create product", message}`. -/
inductive PostResponse where
  | missingFields
  | created (dto : ProductPrimitives)
  | serverError (message : String)
deriving DecidableEq

/-- HTTP status of a `POST /api/products` response. -/
def PostResponse.status : PostResponse → Nat
  | .missingFields => 400
  | .created _ => 201
  | .serverError _ => 500

/-- The `CreateProductDto` the route handler builds from the body
(description defaulted with `|| ''`, stockQuantity with an
`!== undefined` check). -/
def postDtoOf (body : PostRequestBody) : CreateProductDto :=
  { id := none, name := body.name.getD "",
    description := jsOr body.description "",
    price := body.price.getD 0, category := body.category.getD "",
    stockQuantity := some (body.stockQuantity.getD 0) }

/-- The `POST` handler of `src/app/api/products/route.ts`: the guard
`!body.name || !body.price || !body.category` (JavaScript truthiness)
answers 400, otherwise the service creates and saves the product — 201
on success, and the `catch` answers 500 when the service throws
(validation error or rejected repository save, passed in as `save`). -/
def postProducts (freshId : String) (now : ℤ) (body : PostRequestBody)
    (save : Product → Except String Unit) : PostResponse :=
  if !truthyS body.name || !truthyN body.price || !truthyS body.category then
    .missingFields
  else
    match ProductService.createProduct freshId (postDtoOf body) now save with
    | .ok p => .created p.toPrimitives
    | .error e => .serverError e

/-- The `Rating` value object from
`docs/team-collaboration/simulated-use-cases/backend-developer-1.md`
(`src/core/domain/value-objects/Rating.ts`): an immutable wrapper
around the rating number. -/
structure Rating where
  value : ℚ
deriving DecidableEq

/-- Constant `Rating.MIN_RATING`. -/
def Rating.MIN_RATING : ℚ := 1

/-- Constant `Rating.MAX_RATING`. -/
def Rating.MAX_RATING : ℚ := 5

/-- The `Rating` constructor: `validateRating` rejects non-integers
(`Number.isInteger`) first, then values outside `[MIN_RATING,
MAX_RATING]`, and otherwise stores the value. -/
def Rating.make (value : ℚ) : Except String Rating :=
  if ¬ value.den = 1 then
    .error "Rating must be an integer"
  else if value < Rating.MIN_RATING ∨ value > Rating.MAX_RATING then
    .error "Rating must be between 1 and 5"
  else
    .ok ⟨value⟩

/-- Splits a character list at every occurrence of `sep` (the separator
is dropped), as `String.prototype.split` does. -/
def splitOnChar (sep : Char) (l : List Char) : List (List Char) :=
  match l with
  | [] => [[]]
  | c :: rest =>
    let r := splitOnChar sep rest
    if c == sep then [] :: r
    else
      match r with
      | [] => [[c]]
      | h :: t => (c :: h) :: t

/-- The `User` entity state from `src/core/domain/entities/User.ts`
(in `src/unnamed/part_008`, concatenated after the README): private
fields `_id` … `_updatedAt`. -/
structure User where
  id : String
  email : String
  name : String
  role : String
  createdAt : ℤ
  updatedAt : ℤ
deriving DecidableEq

/-- Embeds `User.validateEmail`, i.e. the test of the pattern
`^[^\s@]+@[^\s@]+\.[^\s@]+$`: the string decomposes as `A@B` where `A`
is non-empty without whitespace (splitting on the single literal `@`
already excludes `@` from both sides), and `B` is whitespace-free and
has a `.` that is neither its first nor last character (so both dot
sides are non-empty; the character class admits further dots).  The
whitespace class is the ASCII one, as declared for `jsTrim`. -/
def User.validateEmail (email : String) : Bool :=
  match splitOnChar '@' email.data with
  | [a, rest] =>
    !a.isEmpty && a.all (fun c => !isWs c) &&
    !rest.isEmpty && rest.all (fun c => !isWs c) &&
    ((rest.drop 1).dropLast).contains '.'
  | _ => false

/-- The `User` constructor: assign the fields, then `validateUser`
(id required, non-empty name, email format). -/
def User.construct (id email name role : String) (now : ℤ) :
    Except String User :=
  if id == "" then
    .error "User ID is required"
  else if name == "" || (jsTrim name).length == 0 then
    .error "Name cannot be empty"
  else if !User.validateEmail email then
    .error "Invalid email format"
  else
    .ok { id := id, email := email, name := name, role := role,
          createdAt := now, updatedAt := now }

/-- Embeds `User.create(id, email, name)`: the factory method with the
default role. -/
def User.create (id email name : String) (now : ℤ) : Except String User :=
  User.construct id email name "user" now

/-- The response of `POST /api/auth/register`: 400 when the email is
already registered, 201 with the user DTO, or 500 when `User.create`
throws (the catch answers `{error:"Internal server error"}`). -/
inductive RegisterResult where
  | emailTaken
  | createdUser (u : User)
  | serverError
deriving DecidableEq

/-- The `POST` handler of `src/app/api/auth/register/route.ts`: check
the module-level `mockUsers` list for the email; else run
`User.create(randomUUID(), email, name)` — on success push the user and
answer 201, and when it throws the catch answers 500 and the user is
not stored.  Returns the updated store and the response. -/
def registerPost (st : List User) (freshId name email _password : String)
    (now : ℤ) : List User × RegisterResult :=
  if st.any (fun u => u.email == email) then
    (st, .emailTaken)
  else
    match User.create freshId email name now with
    | .ok u => (st ++ [u], .createdUser u)
    | .error _ => (st, .serverError)

/-- A sequence of register calls applied to a register store, each with
its fresh id, name, email and password. -/
def registerAll (reqs : List (String × String × String × String))
    (now : ℤ) (st : List User) : List User :=
  reqs.foldl (fun s r => (registerPost s r.1 r.2.1 r.2.2.1 r.2.2.2 now).1) st

/-- A credential record of the login route's module-level `mockUsers`
list (timestamps taken at module load are irrelevant to the claims and
omitted). -/
structure LoginUser where
  id : String
  email : String
  password : String
  name : String
  role : String
deriving DecidableEq

/-- The fixed credential store of `src/app/api/auth/login/route.ts`:
only `john@example.com` / `password123`. -/
def loginMockUsers : List LoginUser :=
  [{ id := "1", email := "john@example.com", password := "password123",
     name := "John Doe", role := "user" }]

/-- The response of `POST /api/auth/login`: 401
`{error:"Invalid credentials"}` or 200 with the auth DTO. -/
inductive LoginResult where
  | invalidCredentials
  | authOk (u : LoginUser) (token : String)
deriving DecidableEq

/-- HTTP status of a login response. -/
def LoginResult.status : LoginResult → Nat
  | .invalidCredentials => 401
  | .authOk _ _ => 200

/-- The `POST` handler of `src/app/api/auth/login/route.ts`: find the
email in the module's own `mockUsers` list; a missing user or a
password mismatch answers 401, otherwise 200 with a mock token.  The
handler reads no other store, in particular not the register route's
list. -/
def loginPost (email password : String) : LoginResult :=
  match loginMockUsers.find? (fun u => u.email == email) with
  | none => .invalidCredentials
  | some u =>
    if u.password == password then .authOk u "mock-jwt-token"
    else .invalidCredentials

/-! ### Supporting lemmas -/

/-- A successful `updateStock` sets the quantity, re-derives `inStock`
and refreshes `updatedAt`, leaving the rest unchanged. -/
lemma Product.updateStock_ok {p : Product} {q : ℚ} {now : ℤ} {p2 : Product}
    (h : p.updateStock q now = .ok p2) :
    p2 = { p with stockQuantity := q, inStock := decide (0 < q),
                  updatedAt := now } := by
  unfold Product.updateStock at h
  split at h
  · exact absurd h (by simp)
  · simpa using h.symm

/-- A successful `updatePrice` sets the price and refreshes `updatedAt`,
leaving the rest unchanged. -/
lemma Product.updatePrice_ok {p : Product} {pr : ℚ} {now : ℤ} {p2 : Product}
    (h : p.updatePrice pr now = .ok p2) :
    p2 = { p with price := pr, updatedAt := now } := by
  unfold Product.updatePrice at h
  split at h
  · exact absurd h (by simp)
  · simpa using h.symm

/-- A successful `updateDetails` sets name, description and category and
refreshes `updatedAt`, leaving the rest unchanged. -/
lemma Product.updateDetails_ok {p : Product} {n d : String}
    {c : ProductCategory} {now : ℤ} {p2 : Product}
    (h : p.updateDetails n d c now = .ok p2) :
    p2 = { p with name := n, description := d, category := c,
                  updatedAt := now } := by
  unfold Product.updateDetails at h
  split at h
  · exact absurd h (by simp)
  · simpa using h.symm

/-- A product returned by the constructor is exactly the field record
the constructor assembled. -/
lemma Product.construct_ok {id name description : String} {price : ℚ}
    {category : ProductCategory} {stockQuantity : ℚ} {createdAt updatedAt : ℤ}
    {p : Product}
    (h : Product.construct id name description price category stockQuantity
      createdAt updatedAt = .ok p) :
    p = { id := id, name := name, description := description, price := price,
          category := category, inStock := decide (0 < stockQuantity),
          stockQuantity := stockQuantity,
          createdAt := createdAt, updatedAt := updatedAt } := by
  simp only [Product.construct] at h
  split at h
  · simpa using h.symm
  · exact absurd h (by simp)

/-- Each public mutator preserves the derivation
`inStock = (stockQuantity > 0)`; a thrown error keeps the state. -/
lemma stockInv_runMut (p : Product) (m : Mutation)
    (h : p.inStock = decide (0 < p.stockQuantity)) :
    (runMut p m).inStock = decide (0 < (runMut p m).stockQuantity) := by
  cases m with
  | stock q now =>
    by_cases hq : q < 0 <;>
      simp [runMut, Product.updateStock, hq, h]
  | priceM pr now =>
    by_cases hp : pr < 0 <;>
      simp [runMut, Product.updatePrice, hp, h]
  | details n d c now =>
    cases hn : (n == "" || (jsTrim n).length == 0) <;>
      simp [runMut, Product.updateDetails, hn, h]

/-- Claim C1: for every `Product`, after construction and after any
sequence of mutator calls (`updateStock`, `updatePrice`,
`updateDetails`), the `inStock` field equals `stockQuantity > 0`; no
public operation sets `inStock` independently of `stockQuantity`. -/
theorem c1_inStock_derived (id name description : String) (price : ℚ)
    (category : ProductCategory) (stockQuantity : ℚ)
    (createdAt updatedAt : ℤ) (p0 : Product)
    (h : Product.construct id name description price category stockQuantity
      createdAt updatedAt = .ok p0) (ms : List Mutation) :
    (runMuts p0 ms).inStock = decide (0 < (runMuts p0 ms).stockQuantity) := by
  have h0 : p0.inStock = decide (0 < p0.stockQuantity) := by
    rw [Product.construct_ok h]
  clear h
  induction ms generalizing p0 with
  | nil => exact h0
  | cons m rest ih => exact ih (runMut p0 m) (stockInv_runMut p0 m h0)

/-- A demonstration product: the state produced by
`new Product("1", "Phone", "A phone", 999, electronics, 5, 0, 0)`. -/
def demoProduct : Product :=
  { id := "1", name := "Phone", description := "A phone", price := 999,
    category := ⟨"electronics"⟩, inStock := true, stockQuantity := 5,
    createdAt := 0, updatedAt := 0 }

/-- Witness for C1 at a concrete construction and mutation sequence. -/
theorem c1_inStock_derived_witness :
    (runMuts demoProduct
      [.stock 0 1, .priceM 42 2, .details "Phone2" "B" ⟨"toys"⟩ 3]).inStock
    = decide (0 <
      (runMuts demoProduct
        [.stock 0 1, .priceM 42 2, .details "Phone2" "B" ⟨"toys"⟩ 3]).stockQuantity) :=
  c1_inStock_derived "1" "Phone" "A phone" 999 ⟨"electronics"⟩ 5 0 0
    demoProduct rfl _

/-- Claim C7: `updateStock` with a negative quantity throws
"Stock quantity cannot be negative", and the product state is entirely
unchanged (the mutator throws before any assignment). -/
theorem c7_updateStock_negative (p : Product) (q : ℚ) (now : ℤ)
    (h : q < 0) :
    p.updateStock q now = .error "Stock quantity cannot be negative" ∧
    runMut p (.stock q now) = p := by
  have h1 : p.updateStock q now = .error "Stock quantity cannot be negative" := by
    simp [Product.updateStock, h]
  exact ⟨h1, by simp [runMut, h1]⟩

/-- Witness for C7 at `updateStock(-1)` on a concrete product. -/
theorem c7_updateStock_negative_witness :
    demoProduct.updateStock (-1) 3 = .error "Stock quantity cannot be negative" ∧
    runMut demoProduct (.stock (-1) 3) = demoProduct :=
  c7_updateStock_negative demoProduct (-1) 3 (by norm_num)

/-- Counterexample to claim C3: a rejected `fetch` in `findAll` is
swallowed and becomes the empty array, and a 500 response in `findById`
becomes `null` — the transport failure does not propagate. -/
theorem c3_counterexample :
    ApiProductRepository.findAll 0 (.throws "network failure") = [] ∧
    ApiProductRepository.findById 0
      (.resp false 500 "Internal Server Error"
        ⟨"", "", "", 0, "", none, none, none⟩) = none :=
  ⟨rfl, rfl⟩

/-- Claim C3 as amended: `save` and `delete` propagate transport
failures as errors, but `findById` catches every failure and returns
`null`, and `findAll`/`findByCategory` catch every failure and return
the empty array. -/
theorem c3_amended (now : ℤ) (msg statusText : String) (status : Nat)
    (bodyL : List RawProductData) (bodyR : RawProductData) :
    (ApiProductRepository.findAll now (.throws msg) = [] ∧
     ApiProductRepository.findAll now (.resp false status statusText bodyL) = []) ∧
    (ApiProductRepository.findByCategory now (.throws msg) = [] ∧
     ApiProductRepository.findByCategory now
       (.resp false status statusText bodyL) = []) ∧
    (ApiProductRepository.findById now (.throws msg) = none ∧
     ApiProductRepository.findById now
       (.resp false status statusText bodyR) = none) ∧
    (ApiProductRepository.save (.throws msg) = .error msg ∧
     ApiProductRepository.save (.resp false status statusText ()) =
       .error ("Failed to save product: " ++ statusText)) ∧
    (ApiProductRepository.delete (.throws msg) = .error msg ∧
     ApiProductRepository.delete (.resp false status statusText ()) =
       .error ("Failed to delete product: " ++ statusText)) := by
  refine ⟨⟨rfl, rfl⟩, ⟨rfl, rfl⟩, ⟨rfl, ?_⟩, ⟨rfl, rfl⟩, ⟨rfl, rfl⟩⟩
  cases h404 : status == 404 <;>
    simp [ApiProductRepository.findById, ApiProductRepository.findByIdTry, h404]

/-- Counterexample to claim C4: `getProductsByCategory` on the invalid
category name "gadgets" returns the empty array (a normal result); the
value-object validation error is caught, not propagated. -/
theorem c4_counterexample :
    ProductService.getProductsByCategory (initialMocks 0)
      (fun _ => .error "network error") "gadgets" = [] ∧
    ProductCategory.make "gadgets" =
      .error ("Invalid category: gadgets. Valid categories are: "
        ++ String.intercalate ", " VALID_CATEGORIES) :=
  ⟨rfl, rfl⟩

/-- Claim C4 as amended: when the category name fails `ProductCategory`
validation, `getProductsByCategory` catches the error and returns the
empty array, for every repository behaviour and mock list. -/
theorem c4_amended (mocks : List Product)
    (repo : ProductCategory → Except String (List Product))
    (name e : String) (h : ProductCategory.make name = .error e) :
    ProductService.getProductsByCategory mocks repo name = [] := by
  simp [ProductService.getProductsByCategory, h, Except.bind]

/-- Witness for the amended C4 at a concrete invalid category. -/
theorem c4_amended_witness :
    ProductService.getProductsByCategory [] (fun _ => .ok []) "Gadgets" = [] :=
  c4_amended [] (fun _ => .ok []) "Gadgets"
    ("Invalid category: Gadgets. Valid categories are: "
      ++ String.intercalate ", " VALID_CATEGORIES) rfl

/-- Lemma: `toLowerCase` fixes whitespace characters (only A–Z move). -/
lemma isWs_lowerChar (c : Char) (h : isWs c = true) : lowerChar c = c := by
  simp [isWs] at h
  rcases h with ((rfl | rfl) | rfl) | rfl <;> rfl

/-- If lowering a character list yields a word that begins and ends in
non-whitespace, trimming the original list cannot empty it. -/
lemma trimList_ne_nil (l : List Char) (c0 cl : Char) (rest : List Char)
    (hmap : l.map lowerChar = c0 :: rest)
    (hlast : (c0 :: rest).getLast? = some cl)
    (hc0 : isWs c0 = false) (hcl : isWs cl = false) :
    trimList l ≠ [] := by
  cases l with
  | nil => simp at hmap
  | cons x xs =>
    simp only [List.map_cons, List.cons.injEq] at hmap
    obtain ⟨hx, hxs⟩ := hmap
    have hxw : isWs x = false := by
      cases hw : isWs x
      · rfl
      · rw [isWs_lowerChar x hw] at hx
        rw [hx] at hw
        simp [hw] at hc0
    have hlast2 : (((x :: xs).map lowerChar).getLast?) = some cl := by
      rw [List.map_cons, hx, hxs]
      exact hlast
    rw [List.getLast?_map] at hlast2
    obtain ⟨y, hy, hyl⟩ : ∃ y, (x :: xs).getLast? = some y ∧ lowerChar y = cl := by
      cases hgl : (x :: xs).getLast? with
      | none => rw [hgl] at hlast2; simp at hlast2
      | some y =>
        rw [hgl] at hlast2
        simp at hlast2
        exact ⟨y, rfl, hlast2⟩
    have hyw : isWs y = false := by
      cases hw : isWs y
      · rfl
      · rw [isWs_lowerChar y hw] at hyl
        rw [hyl] at hw
        simp [hw] at hcl
    unfold trimList
    rw [List.dropWhile_cons_of_neg (by simp [hxw])]
    have hrev : (x :: xs).reverse.head? = some y := by
      rw [List.head?_reverse]
      exact hy
    cases hr : (x :: xs).reverse with
    | nil => simp at hr
    | cons z zs =>
      rw [hr] at hrev
      simp only [List.head?_cons, Option.some.injEq] at hrev
      subst hrev
      rw [List.dropWhile_cons_of_neg (by simp [hyw])]
      simp

/-- A string whose lowercase form is a valid category is neither empty
nor whitespace-only, so the constructor's emptiness check passes. -/
lemma catChecksPass (s : String) (h : jsToLower s ∈ VALID_CATEGORIES) :
    (s == "" || (jsTrim s).length == 0) = false := by
  have hdata : s.data.map lowerChar = (jsToLower s).data := rfl
  have htrim : trimList s.data ≠ [] := by
    simp only [VALID_CATEGORIES, List.mem_cons, List.not_mem_nil, or_false] at h
    rcases h with h | h | h | h | h | h | h | h | h | h
    · rw [h] at hdata
      exact trimList_ne_nil _ 'e' 's' _ hdata (by decide) rfl rfl
    · rw [h] at hdata
      exact trimList_ne_nil _ 'c' 'g' _ hdata (by decide) rfl rfl
    · rw [h] at hdata
      exact trimList_ne_nil _ 'b' 's' _ hdata (by decide) rfl rfl
    · rw [h] at hdata
      exact trimList_ne_nil _ 'h' 'e' _ hdata (by decide) rfl rfl
    · rw [h] at hdata
      exact trimList_ne_nil _ 's' 's' _ hdata (by decide) rfl rfl
    · rw [h] at hdata
      exact trimList_ne_nil _ 't' 's' _ hdata (by decide) rfl rfl
    · rw [h] at hdata
      exact trimList_ne_nil _ 'f' 'd' _ hdata (by decide) rfl rfl
    · rw [h] at hdata
      exact trimList_ne_nil _ 'h' 'h' _ hdata (by decide) rfl rfl
    · rw [h] at hdata
      exact trimList_ne_nil _ 'b' 'y' _ hdata (by decide) rfl rfl
    · rw [h] at hdata
      exact trimList_ne_nil _ 'o' 'r' _ hdata (by decide) rfl rfl
  have hne : s.data ≠ [] := fun hd => htrim (by rw [hd]; rfl)
  have h1 : (s == "") = false :=
    beq_eq_false_iff_ne.mpr (fun hs => hne (by rw [hs]))
  have h2 : ((jsTrim s).length == 0) = false := by
    have hl : (jsTrim s).length ≠ 0 :=
      fun hh => htrim (List.length_eq_zero.mp hh)
    exact beq_eq_false_iff_ne.mpr hl
  rw [h1, h2]
  rfl

/-- Claim C8: `ProductCategory` construction succeeds exactly for
strings that case-insensitively match one of the ten categories, stores
the value normalized to lowercase, and throws a descriptive error for
every other string. -/
theorem c8_category_exact (s : String) :
    (jsToLower s ∈ VALID_CATEGORIES →
      ProductCategory.make s = .ok ⟨jsToLower s⟩) ∧
    (jsToLower s ∉ VALID_CATEGORIES →
      ∃ e, ProductCategory.make s = .error e) := by
  constructor
  · intro h
    have hchk := catChecksPass s h
    simp [ProductCategory.make, hchk, h]
  · intro h
    cases hchk : (s == "" || (jsTrim s).length == 0)
    · exact ⟨"Invalid category: " ++ s ++ ". Valid categories are: "
        ++ String.intercalate ", " VALID_CATEGORIES,
        by simp [ProductCategory.make, hchk, h]⟩
    · exact ⟨"Category cannot be empty",
        by simp [ProductCategory.make, hchk]⟩

/-- Witness for C8: "Electronics" is accepted case-insensitively and
normalized, "Gadgets" is rejected. -/
theorem c8_category_exact_witness :
    ProductCategory.make "Electronics" = .ok ⟨"electronics"⟩ ∧
    (∃ e, ProductCategory.make "Gadgets" = .error e) := by
  constructor
  · have h := (c8_category_exact "Electronics").1 (by decide)
    simpa using h
  · exact (c8_category_exact "Gadgets").2 (by decide)

/-- The stored value of a successfully constructed category is one of
the valid category strings. -/
lemma ProductCategory.make_ok_mem {cs : String} {cat : ProductCategory}
    (h : ProductCategory.make cs = .ok cat) :
    cat.value ∈ VALID_CATEGORIES := by
  unfold ProductCategory.make at h
  split at h
  · exact absurd h (by simp)
  · split at h
    · rename_i hmem
      simp only [Except.ok.injEq] at h
      subst h
      simpa [List.contains] using hmem
    · exact absurd h (by simp)

/-- Every stored (lowercase) category string is accepted verbatim by the
constructor and stored unchanged. -/
lemma mem_cats_make {v : String} (h : v ∈ VALID_CATEGORIES) :
    ProductCategory.make v = .ok ⟨v⟩ := by
  fin_cases h <;> rfl

/-- Claim C2: for every validly constructed `Product` p,
`fromPrimitives(toPrimitives(p))` succeeds and yields an entity whose
`toPrimitives` output is deep-equal to that of p (no mutation occurs
during the round trip, so no timestamp differs). -/
theorem c2_roundtrip (id name description cs : String) (price : ℚ)
    (cat : ProductCategory) (stockQuantity : ℚ)
    (createdAt updatedAt now : ℤ) (p : Product)
    (hcat : ProductCategory.make cs = .ok cat)
    (hp : Product.construct id name description price cat stockQuantity
      createdAt updatedAt = .ok p) :
    ∃ p2, Product.fromPrimitives now p.toPrimitives.toRaw = .ok p2 ∧
      p2.toPrimitives = p.toPrimitives := by
  refine ⟨p, ?_, rfl⟩
  have hmem := ProductCategory.make_ok_mem hcat
  have hpe := Product.construct_ok hp
  subst hpe
  obtain ⟨v⟩ := cat
  show (do
    let c ← ProductCategory.make v
    Product.construct id name description price c stockQuantity
      createdAt updatedAt : Except String Product) = _
  rw [mem_cats_make hmem]
  exact hp

/-- Witness for C2 at a concrete constructed product. -/
theorem c2_roundtrip_witness :
    ∃ p2, Product.fromPrimitives 7 demoProduct.toPrimitives.toRaw = .ok p2 ∧
      p2.toPrimitives = demoProduct.toPrimitives :=
  c2_roundtrip "1" "Phone" "A phone" "Electronics" 999 ⟨"electronics"⟩ 5 0 0 7
    demoProduct rfl rfl

/-- A request body whose three required fields are all present, with
`price` equal to `0`. -/
def c5Body : PostRequestBody :=
  { name := some "Widget", description := some "A widget", price := some 0,
    category := some "electronics", stockQuantity := none }

/-- Counterexample to claim C5: a body with `name`, `price` and
`category` all present but `price = 0` is answered 400
`{error:"Missing required fields"}`, because the handler tests
JavaScript truthiness (`!body.price`), not presence — even with a
repository whose save succeeds. -/
theorem c5_counterexample :
    c5Body.name.isSome = true ∧ c5Body.price.isSome = true ∧
    c5Body.category.isSome = true ∧
    postProducts "id-1" 0 c5Body (fun _ => .ok ()) = .missingFields ∧
    (postProducts "id-1" 0 c5Body (fun _ => .ok ())).status = 400 :=
  ⟨rfl, rfl, rfl, rfl, rfl⟩

/-- Claim C5 as amended: the 400 `{error:"Missing required fields"}`
response is produced exactly when `name`, `price` or `category` is
missing or falsy (absent, empty string, or the number 0); when all
three are truthy the handler delegates to the service — a category or
entity validation error and a rejected repository save each make it
answer 500 with the thrown message, and it answers 201 with the
created product DTO exactly when validation passes and the save
succeeds. -/
theorem c5_amended (freshId : String) (now : ℤ) (body : PostRequestBody)
    (save : Product → Except String Unit) :
    (postProducts freshId now body save = .missingFields ↔
      (truthyS body.name = false ∨ truthyN body.price = false ∨
        truthyS body.category = false)) ∧
    (∀ e, truthyS body.name = true → truthyN body.price = true →
      truthyS body.category = true →
      ProductCategory.make (body.category.getD "") = .error e →
      postProducts freshId now body save = .serverError e) ∧
    (∀ cat e, truthyS body.name = true → truthyN body.price = true →
      truthyS body.category = true →
      ProductCategory.make (body.category.getD "") = .ok cat →
      Product.construct freshId (body.name.getD "")
        (jsOr body.description "") (body.price.getD 0) cat
        (body.stockQuantity.getD 0) now now = .error e →
      postProducts freshId now body save = .serverError e) ∧
    (∀ cat p, truthyS body.name = true → truthyN body.price = true →
      truthyS body.category = true →
      ProductCategory.make (body.category.getD "") = .ok cat →
      Product.construct freshId (body.name.getD "")
        (jsOr body.description "") (body.price.getD 0) cat
        (body.stockQuantity.getD 0) now now = .ok p →
      (save p = .ok () →
        postProducts freshId now body save = .created p.toPrimitives) ∧
      (∀ e, save p = .error e →
        postProducts freshId now body save = .serverError e)) := by
  refine ⟨?_, ?_, ?_, ?_⟩
  · cases ha : truthyS body.name <;> cases hb : truthyN body.price <;>
      cases hc : truthyS body.category <;>
      simp [postProducts, ha, hb, hc]
    cases hcr : ProductService.createProduct freshId (postDtoOf body) now
        save <;> simp [hcr]
  · intro e ha hb hc hmk
    simp only [postProducts, ha, hb, hc, ProductService.createProduct,
      postDtoOf, hmk, Bool.not_true, Bool.or_self, Bool.or_false,
      Bool.false_or]
    rfl
  · intro cat e ha hb hc hmk hcon
    have hcr : ProductService.createProduct freshId (postDtoOf body) now
        save = .error e := by
      unfold ProductService.createProduct
      rw [show ProductCategory.make (postDtoOf body).category = .ok cat
        from hmk]
      show Except.bind (Product.construct freshId (body.name.getD "")
        (jsOr body.description "") (body.price.getD 0) cat
        (body.stockQuantity.getD 0) now now) _ = _
      rw [hcon]
      rfl
    simp only [postProducts, ha, hb, hc, Bool.not_true, Bool.or_self,
      Bool.or_false, Bool.false_or, hcr]
    rfl
  · intro cat p ha hb hc hmk hcon
    constructor
    · intro hsave
      have hcr : ProductService.createProduct freshId (postDtoOf body) now
          save = .ok p := by
        unfold ProductService.createProduct
        rw [show ProductCategory.make (postDtoOf body).category = .ok cat
          from hmk]
        show Except.bind (Product.construct freshId (body.name.getD "")
          (jsOr body.description "") (body.price.getD 0) cat
          (body.stockQuantity.getD 0) now now) _ = _
        rw [hcon]
        show Except.bind (save p) _ = _
        rw [hsave]
        rfl
      simp only [postProducts, ha, hb, hc, Bool.not_true, Bool.or_self,
        Bool.or_false, Bool.false_or, hcr]
      rfl
    · intro e hsave
      have hcr : ProductService.createProduct freshId (postDtoOf body) now
          save = .error e := by
        unfold ProductService.createProduct
        rw [show ProductCategory.make (postDtoOf body).category = .ok cat
          from hmk]
        show Except.bind (Product.construct freshId (body.name.getD "")
          (jsOr body.description "") (body.price.getD 0) cat
          (body.stockQuantity.getD 0) now now) _ = _
        rw [hcon]
        show Except.bind (save p) _ = _
        rw [hsave]
        rfl
      simp only [postProducts, ha, hb, hc, Bool.not_true, Bool.or_self,
        Bool.or_false, Bool.false_or, hcr]
      rfl

/-- The product `POST /api/products` creates for the C5 witness body. -/
def c5Created : Product :=
  { id := "id-1", name := "Widget", description := "", price := 5,
    category := ⟨"electronics"⟩, inStock := true, stockQuantity := 2,
    createdAt := 0, updatedAt := 0 }

/-- Witness for the amended C5: a fully valid body whose save succeeds
is answered 201 with the created DTO; the same body is answered 500
when the repository save rejects. -/
theorem c5_amended_witness :
    postProducts "id-1" 0
      { name := some "Widget", description := none, price := some 5,
        category := some "Electronics", stockQuantity := some 2 }
      (fun _ => .ok ()) = .created c5Created.toPrimitives ∧
    postProducts "id-1" 0
      { name := some "Widget", description := none, price := some 5,
        category := some "Electronics", stockQuantity := some 2 }
      (fun _ => .error "network failure") = .serverError "network failure" := by
  constructor
  · exact ((c5_amended "id-1" 0
      { name := some "Widget", description := none, price := some 5,
        category := some "Electronics", stockQuantity := some 2 }
      (fun _ => .ok ())).2.2.2 ⟨"electronics"⟩ c5Created
      rfl rfl rfl rfl rfl).1 rfl
  · exact ((c5_amended "id-1" 0
      { name := some "Widget", description := none, price := some 5,
        category := some "Electronics", stockQuantity := some 2 }
      (fun _ => .error "network failure")).2.2.2 ⟨"electronics"⟩ c5Created
      rfl rfl rfl rfl rfl).2 "network failure" rfl

/-- Inversion for a successful `Except` bind. -/
lemma Except.bind_ok_inv {ε α β : Type} {x : Except ε α} {f : α → Except ε β}
    {b : β} (h : Except.bind x f = .ok b) : ∃ a, x = .ok a ∧ f a = .ok b := by
  cases x with
  | ok a => exact ⟨a, rfl, h⟩
  | error e => exact absurd h (by simp [Except.bind])

/-- Lemma: `o || d` on an optional string, written through truthiness. -/
lemma jsOr_eq (o : Option String) (d : String) :
    jsOr o d = if truthyS o then o.getD "" else d := by
  cases o with
  | none => rfl
  | some s => cases hs : (s == "") <;> simp [jsOr, truthyS, hs]

/-- A successfully constructed category stores the lowercased input. -/
lemma ProductCategory.make_ok_value {cs : String} {cat : ProductCategory}
    (h : ProductCategory.make cs = .ok cat) : cat = ⟨jsToLower cs⟩ := by
  unfold ProductCategory.make at h
  split at h
  · exact absurd h (by simp)
  · split at h
    · simpa using h.symm
    · exact absurd h (by simp)

/-- The `UpdateProductDto` that exhibits the counterexample: only
`description` is present, with the empty string as value. -/
def c6Dto : UpdateProductDto :=
  { name := none, description := some "", price := none, category := none,
    stockQuantity := none }

/-- Counterexample to claim C6: a DTO whose `description` field is
present (the empty string) leaves the description — and the whole
product — untouched, because the service tests truthiness
(`productDto.description ||`), not presence. -/
theorem c6_counterexample :
    c6Dto.description = some "" ∧
    ProductService.updateProduct (some demoProduct) c6Dto 7 =
      .ok (some demoProduct) ∧
    demoProduct.description = "A phone" :=
  ⟨rfl, rfl, rfl⟩

/-- Claim C6 as amended: `updateProduct` returns null for an unresolved
id; on success it applies `name`, `description` and `category` exactly
when they are present and truthy (a present empty string is treated as
absent), applies `price` and `stockQuantity` exactly when present
(explicit undefined checks, so 0 is applied), and leaves every other
field untouched. -/
theorem c6_amended (p : Product) (dto : UpdateProductDto) (now : ℤ) :
    ProductService.updateProduct none dto now = .ok none ∧
    (∀ p2, ProductService.updateProduct (some p) dto now = .ok (some p2) →
      p2.id = p.id ∧ p2.createdAt = p.createdAt ∧
      p2.name = (if truthyS dto.name then dto.name.getD "" else p.name) ∧
      p2.description = (if truthyS dto.description then dto.description.getD ""
        else p.description) ∧
      (truthyS dto.category = false → p2.category = p.category) ∧
      (truthyS dto.category = true →
        p2.category = ⟨jsToLower (dto.category.getD "")⟩) ∧
      p2.price = dto.price.getD p.price ∧
      p2.stockQuantity = dto.stockQuantity.getD p.stockQuantity) := by
  refine ⟨rfl, ?_⟩
  intro p2 h
  simp only [ProductService.updateProduct] at h
  obtain ⟨p1, h1, h⟩ := Except.bind_ok_inv h
  obtain ⟨px, h2, h⟩ := Except.bind_ok_inv h
  obtain ⟨py, h3, h⟩ := Except.bind_ok_inv h
  have hp : py = p2 := by simpa using h
  have e2 : px.id = p1.id ∧ px.createdAt = p1.createdAt ∧
      px.name = p1.name ∧ px.description = p1.description ∧
      px.category = p1.category ∧
      px.price = dto.price.getD p1.price ∧
      px.stockQuantity = p1.stockQuantity := by
    cases hpr : dto.price with
    | none =>
      rw [hpr] at h2
      have he : p1 = px := by simpa using h2
      subst he
      simp
    | some pr =>
      rw [hpr] at h2
      rw [Product.updatePrice_ok h2]
      simp
  have e3 : py.id = px.id ∧ py.createdAt = px.createdAt ∧
      py.name = px.name ∧ py.description = px.description ∧
      py.category = px.category ∧ py.price = px.price ∧
      py.stockQuantity = dto.stockQuantity.getD px.stockQuantity := by
    cases hsq : dto.stockQuantity with
    | none =>
      rw [hsq] at h3
      have he : px = py := by simpa using h3
      subst he
      simp
    | some q =>
      rw [hsq] at h3
      rw [Product.updateStock_ok h3]
      simp
  obtain ⟨e2i, e2c, e2n, e2d, e2g, e2p, e2s⟩ := e2
  obtain ⟨e3i, e3c, e3n, e3d, e3g, e3p, e3s⟩ := e3
  have e1 : p1.id = p.id ∧ p1.createdAt = p.createdAt ∧
      p1.name = (if truthyS dto.name then dto.name.getD "" else p.name) ∧
      p1.description = (if truthyS dto.description then dto.description.getD ""
        else p.description) ∧
      (truthyS dto.category = false → p1.category = p.category) ∧
      (truthyS dto.category = true →
        p1.category = ⟨jsToLower (dto.category.getD "")⟩) ∧
      p1.price = p.price ∧ p1.stockQuantity = p.stockQuantity := by
    cases hcond : (truthyS dto.name || truthyS dto.description ||
        truthyS dto.category) with
    | false =>
      rw [hcond] at h1
      simp only [Bool.or_eq_false_iff] at hcond
      obtain ⟨⟨ha, hb⟩, hc⟩ := hcond
      have he : p = p1 := by simpa using h1
      subst he
      simp [ha, hb, hc]
    | true =>
      rw [hcond] at h1
      simp only [if_true] at h1
      obtain ⟨catv, hcat, hupd⟩ := Except.bind_ok_inv h1
      rw [Product.updateDetails_ok hupd]
      have hcatv : (truthyS dto.category = false → catv = p.category) ∧
          (truthyS dto.category = true →
            catv = ⟨jsToLower (dto.category.getD "")⟩) := by
        cases hdc : dto.category with
        | none =>
          rw [hdc] at hcat
          have hcat2 : Except.ok p.category = .ok catv := hcat
          have he : p.category = catv := by simpa using hcat2
          subst he
          simp [truthyS]
        | some c =>
          rw [hdc] at hcat
          have hcat2 : (if (c == "") = true then Except.ok p.category
              else ProductCategory.make c) = .ok catv := hcat
          cases hce : (c == "") with
          | true =>
            rw [hce] at hcat2
            simp only [if_true] at hcat2
            have he : p.category = catv := by simpa using hcat2
            subst he
            simp [truthyS, hce]
          | false =>
            rw [hce] at hcat2
            simp only [Bool.false_eq_true, if_false] at hcat2
            rw [ProductCategory.make_ok_value hcat2]
            simp [truthyS, hce]
      exact ⟨rfl, rfl, jsOr_eq dto.name p.name, jsOr_eq dto.description
        p.description, hcatv.1, hcatv.2, rfl, rfl⟩
  obtain ⟨e1i, e1c, e1n, e1d, e1g, e1h, e1p, e1s⟩ := e1
  refine ⟨?_, ?_, ?_, ?_, ?_, ?_, ?_, ?_⟩
  · rw [← hp, e3i, e2i, e1i]
  · rw [← hp, e3c, e2c, e1c]
  · rw [← hp, e3n, e2n, e1n]
  · rw [← hp, e3d, e2d, e1d]
  · intro hg
    rw [← hp, e3g, e2g, e1g hg]
  · intro hg
    rw [← hp, e3g, e2g, e1h hg]
  · rw [← hp, e3p, e2p, e1p]
  · rw [← hp, e3s, e2s, e1s]

/-- The DTO of the C6 witness run: set name, price and stock. -/
def c6WitnessDto : UpdateProductDto :=
  { name := some "New", description := none, price := some 42,
    category := none, stockQuantity := some 0 }

/-- The product state `updateProduct` produces from `demoProduct` and
`c6WitnessDto` at time 9. -/
def c6Expected : Product :=
  { id := "1", name := "New", description := "A phone", price := 42,
    category := ⟨"electronics"⟩, inStock := false, stockQuantity := 0,
    createdAt := 0, updatedAt := 9 }

/-- Witness for the amended C6: a DTO updating name, price and stock on
a concrete product yields exactly those fields. -/
theorem c6_amended_witness :
    ProductService.updateProduct none c6WitnessDto 9 = .ok none ∧
    c6Expected.name = "New" ∧ c6Expected.price = 42 := by
  have h := c6_amended demoProduct c6WitnessDto 9
  refine ⟨h.1, ?_, ?_⟩
  · have h2 := (h.2 c6Expected rfl).2.2.1
    simpa [c6WitnessDto, truthyS] using h2
  · have h2 := (h.2 c6Expected rfl).2.2.2.2.2.2.1
    simpa [c6WitnessDto] using h2

/-- Claim C9: `Rating` construction succeeds exactly for the integers
1–5; 0 and 6 are rejected with "Rating must be between 1 and 5" and the
non-integer 3.5 with "Rating must be an integer". -/
theorem c9_rating_exact (q : ℚ) :
    ((∃ r, Rating.make q = .ok r) ↔
      (q = 1 ∨ q = 2 ∨ q = 3 ∨ q = 4 ∨ q = 5)) ∧
    Rating.make 0 = .error "Rating must be between 1 and 5" ∧
    Rating.make 6 = .error "Rating must be between 1 and 5" ∧
    Rating.make (7 / 2) = .error "Rating must be an integer" := by
  refine ⟨⟨?_, ?_⟩, rfl, rfl, ?_⟩
  · rintro ⟨r, hr⟩
    unfold Rating.make at hr
    split at hr
    · exact absurd hr (by simp)
    · split at hr
      · exact absurd hr (by simp)
      · rename_i hden hrange
        rw [not_not] at hden
        rw [not_or, not_lt, not_lt] at hrange
        obtain ⟨h1, h5⟩ := hrange
        have hq : (q.num : ℚ) = q := (Rat.den_eq_one_iff q).mp hden
        rw [Rating.MIN_RATING] at h1
        rw [Rating.MAX_RATING] at h5
        rw [← hq] at h1 h5
        have h1n : (1 : ℤ) ≤ q.num := by exact_mod_cast h1
        have h5n : q.num ≤ 5 := by exact_mod_cast h5
        have : q.num = 1 ∨ q.num = 2 ∨ q.num = 3 ∨ q.num = 4 ∨ q.num = 5 := by
          omega
        rcases this with h | h | h | h | h <;> rw [← hq, h] <;> norm_num
  · rintro (rfl | rfl | rfl | rfl | rfl) <;> exact ⟨⟨_⟩, rfl⟩
  · have hden : ((7 : ℚ) / 2).den = 2 := by norm_num
    simp [Rating.make, hden]

/-- Witness for C9: the rating 3 is accepted. -/
theorem c9_rating_exact_witness : ∃ r, Rating.make 3 = .ok r :=
  (c9_rating_exact 3).1.mpr (by norm_num)

/-- Claim C10: the login credential store is the fixed in-module list
containing only john@example.com, disjoint from the list the register
route appends to; after any sequence of register calls, a login with
any registered email other than john@example.com answers 401
`{error:"Invalid credentials"}`. -/
theorem c10_register_never_enables_login
    (reqs : List (String × String × String × String)) (now : ℤ)
    (email password : String)
    (hreg : email ∈ (registerAll reqs now []).map User.email)
    (hne : email ≠ "john@example.com") :
    loginPost email password = .invalidCredentials ∧
    (loginPost email password).status = 401 := by
  have hb : ("john@example.com" == email) = false :=
    beq_eq_false_iff_ne.mpr (Ne.symm hne)
  have hfind : loginMockUsers.find? (fun u => u.email == email) = none := by
    simp [loginMockUsers, List.find?, hb]
  constructor
  · simp [loginPost, hfind]
  · simp [loginPost, hfind, LoginResult.status]

/-- Witness for C10: after a successful registration of
alice@example.com (the email passes `User.create` validation and is
stored), logging in as alice is rejected with 401. -/
theorem c10_register_never_enables_login_witness :
    loginPost "alice@example.com" "secret" = .invalidCredentials ∧
    (loginPost "alice@example.com" "secret").status = 401 :=
  c10_register_never_enables_login
    [("id-1", "Alice", "alice@example.com", "secret")] 0
    "alice@example.com" "secret" (by decide) (by decide)
